import Mathlib

/-!
Verification of the lead-response assistant (`src/app.py`).

The development shallowly embeds the response-drafting core of the
application: the constant policy prompt, the tone-to-instruction table,
the prompt composer that builds the two-message request, the completion
client `generate_response` (parametrised by a provider oracle so that
success and failure behaviours can both be examined), and the
interactive shell's session-state transition (`mainStep`), covering the
Generate and Regenerate actions of `main`.
-/

namespace LeadResponse

/-- `MODEL_ID` from `src/app.py` line 30: the fixed model identifier. -/
def MODEL_ID : String := "llama-3.3-70b-versatile"

/-- `SYSTEM_PROMPT` from `src/app.py` lines 35–94: the constant policy
prompt sent as the system message of every request. -/
def SYSTEM_PROMPT : String :=
  "You are a customer response assistant for a property inspection company.\n\nYour task is to generate a polite, professional, and human-sounding reply to a customer enquiry.\n\nSTRICT RULES (must follow):\n- Do NOT assume or guess the cause of the issue\n- Do NOT diagnose the problem\n- Do NOT mention specific causes (roof, leakage, walls, cracks, mold, inspection, repair, pricing, services) unless the customer explicitly mentions them\n- Do NOT offer inspections, callbacks, site visits, or estimates\n- Do NOT make promises or guarantees\n- Do NOT use emojis or overly casual language\n\nRESPONSE GUIDELINES:\n- Acknowledge the customer's concern empathetically\n- Ask only neutral, relevant clarifying questions\n- Suggest only safe and general next steps (observation, keeping area clear, normal ventilation)\n- Avoid technical jargon\n- Keep the tone calm, supportive, and professional\n- Keep the response concise and clear\n- Reply in the same language the customer used\n\nCRITICAL — Response Formatting Rules (YOU MUST FOLLOW):\nYou MUST format your entire response using Markdown with clear section headers. Do NOT write plain paragraphs without structure.\n\nUse this exact template:\n\n---\n\n**Acknowledgement**\n\n(1-2 sentences acknowledging the customer's concern empathetically)\n\n---\n\n**Clarifying Questions**\n\nTo understand your situation better, could you share:\n\n1. (First neutral clarifying question)\n2. (Second neutral clarifying question)\n3. (Third neutral clarifying question)\n\n---\n\n**Suggested Next Steps**\n\nIn the meantime, here are a few things you can do:\n\n- (First safe, general step)\n- (Second safe, general step)\n- (Third safe, general step)\n\n---\n\n**Closing**\n\n(A warm, professional closing — let them know someone will get back once they share more details)\n\n---\n"

/-- Python's `str.strip()` as used in `main` (`src/app.py` line 275):
remove leading and trailing whitespace characters. -/
def strip (s : String) : String :=
  ⟨((s.data.dropWhile Char.isWhitespace).reverse.dropWhile
      Char.isWhitespace).reverse⟩

/-- The tone-to-instruction table: the `if`/`elif` chain of
`generate_response`, `src/app.py` lines 108–114.  An unrecognised tone
keeps the initial empty string. -/
def tone_instruction (tone : String) : String :=
  if tone = "Friendly & Casual" then
    "Use a friendly, casual tone — like talking to a neighbour."
  else if tone = "Formal & Professional" then
    "Use a formal, professional tone suitable for corporate communication."
  else if tone = "Empathetic & Supportive" then
    "Use an extra empathetic and supportive tone — the customer may be stressed."
  else ""

/-- A chat message: a role (`"system"` or `"user"`) paired with text. -/
structure Message where
  role : String
  content : String
deriving DecidableEq, Repr

/-- The `messages` list built in `generate_response`, `src/app.py` lines
116–119: the Prompt Composer of the design. -/
def composeMessages (enquiry tone : String) : List Message :=
  [⟨"system", SYSTEM_PROMPT ++ "\n\n" ++ tone_instruction tone⟩,
   ⟨"user", enquiry⟩]

/-- The parameters of one outbound chat-completion request, as passed to
`client.chat.completions.create` in `src/app.py` lines 121–127. -/
structure Request where
  model : String
  messages : List Message
  temperature : ℚ
  max_tokens : ℕ
  top_p : ℚ
deriving DecidableEq, Repr

/-- The request issued by `generate_response` for a given enquiry and
tone (`src/app.py` lines 121–127): fixed model and sampling constants,
messages from the composer. -/
def buildRequest (enquiry tone : String) : Request :=
  { model := MODEL_ID
    messages := composeMessages enquiry tone
    temperature := 0.5
    max_tokens := 1024
    top_p := 0.9 }

/-- `chat_completion.choices[i].message` in the provider's response. -/
structure ChoiceMessage where
  content : String
deriving DecidableEq, Repr

/-- One completion choice of the provider's response. -/
structure Choice where
  message : ChoiceMessage
deriving DecidableEq, Repr

/-- The provider's response object (`chat_completion`). -/
structure ChatCompletion where
  choices : List Choice
deriving DecidableEq, Repr

/-- A provider oracle: the behaviour of
`client.chat.completions.create` on one request.  `Except.error e`
models a raised provider exception with message `e`. -/
def Provider : Type := Request → Except String ChatCompletion

/-- `generate_response` from `src/app.py` lines 104–128, parametrised by
the provider oracle.  It issues exactly one request (the returned trace
records every request issued — the source performs a single call with no
retry) and returns `chat_completion.choices[0].message.content` on
success; a raised provider error propagates unchanged; `choices[0]` on
an empty list raises an index error.  -/
def generate_response (provider : Provider) (enquiry tone : String) :
    Except String String × List Request :=
  let req := buildRequest enquiry tone
  ((match provider req with
    | .error e => .error e
    | .ok comp =>
      match comp.choices with
      | [] => .error "list index out of range"
      | c :: _ => .ok c.message.content), [req])

/-- The Streamlit session state used by `main`: the values of the keys
`"last_response"` and `"last_enquiry"` (`none` when the key is absent). -/
structure SessionState where
  last_response : Option String
  last_enquiry : Option String
deriving DecidableEq, Repr

/-- A fresh session: neither key present. -/
def initialState : SessionState := ⟨none, none⟩

/-- A user action in the interactive shell: clicking Generate with the
current enquiry text and tone selection, or clicking Regenerate with the
currently selected tone. -/
inductive Event where
  | generateClick (enquiry tone : String)
  | regenerateClick (tone : String)
deriving DecidableEq, Repr

/-- What the right-hand column surfaces to the user on one action. -/
inductive Display where
  | warning (msg : String)
  | errorBox (msg : String)
  | responseShown
  | infoPrompt
deriving DecidableEq, Repr

/-- Outcome of one shell action: the new session state, what was
displayed, and the provider requests issued during the action. -/
structure StepResult where
  state : SessionState
  display : Display
  providerCalls : List Request
deriving DecidableEq, Repr

/-- One step of the interactive shell `main`, `src/app.py` lines
274–307.  Generate: an empty (after strip) enquiry shows a warning and
issues no request; otherwise `generate_response` is called and on
success both session keys are overwritten, while on an exception the
state is untouched and the error text is shown.  Regenerate: only
reachable when `"last_response"` is present; calls `generate_response`
with `st.session_state.get("last_enquiry", "")` and the current tone,
overwriting only `"last_response"` on success. -/
def mainStep (provider : Provider) (s : SessionState) : Event → StepResult
  | .generateClick enquiry tone =>
    if (strip enquiry).isEmpty then
      { state := s
        display := .warning "⚠️ Please enter a customer enquiry first."
        providerCalls := [] }
    else
      match generate_response provider enquiry tone with
      | (.ok response, calls) =>
        { state := { last_response := some response, last_enquiry := some enquiry }
          display := .responseShown
          providerCalls := calls }
      | (.error e, calls) =>
        { state := s
          display := .errorBox ("❌ Error from Groq API: " ++ e)
          providerCalls := calls }
  | .regenerateClick tone =>
    match s.last_response with
    | none =>
      { state := s, display := .infoPrompt, providerCalls := [] }
    | some _ =>
      match generate_response provider (s.last_enquiry.getD "") tone with
      | (.ok response, calls) =>
        { state := { last_response := some response, last_enquiry := s.last_enquiry }
          display := .responseShown
          providerCalls := calls }
      | (.error e, calls) =>
        { state := s
          display := .errorBox ("❌ Error: " ++ e)
          providerCalls := calls }

/-- Session states reachable from a fresh session through shell actions,
under arbitrary provider behaviour. -/
inductive Reachable : SessionState → Prop
  | init : Reachable initialState
  | step (provider : Provider) (ev : Event) (s : SessionState) :
      Reachable s → Reachable (mainStep provider s ev).state

/-- A stub provider whose every call succeeds with a single choice
carrying `text`. -/
def stubOk (text : String) : Provider := fun _ => .ok ⟨[⟨⟨text⟩⟩]⟩

/-- A failing stub provider: every call raises with message `msg`. -/
def stubErr (msg : String) : Provider := fun _ => .error msg

/-! ### Branch characterisations of `mainStep` -/

theorem step_generate_blank (provider : Provider) (s : SessionState)
    (enquiry tone : String) (hb : (strip enquiry).isEmpty = true) :
    mainStep provider s (.generateClick enquiry tone) =
      ⟨s, .warning "⚠️ Please enter a customer enquiry first.", []⟩ := by
  simp [mainStep, hb]

theorem step_generate_err (provider : Provider) (s : SessionState)
    (enquiry tone e : String) (hb : (strip enquiry).isEmpty = false)
    (hp : provider (buildRequest enquiry tone) = .error e) :
    mainStep provider s (.generateClick enquiry tone) =
      ⟨s, .errorBox ("❌ Error from Groq API: " ++ e),
       [buildRequest enquiry tone]⟩ := by
  simp [mainStep, hb, generate_response, hp]

theorem step_generate_nil (provider : Provider) (s : SessionState)
    (enquiry tone : String) (comp : ChatCompletion)
    (hb : (strip enquiry).isEmpty = false)
    (hp : provider (buildRequest enquiry tone) = .ok comp)
    (hc : comp.choices = []) :
    mainStep provider s (.generateClick enquiry tone) =
      ⟨s, .errorBox ("❌ Error from Groq API: " ++ "list index out of range"),
       [buildRequest enquiry tone]⟩ := by
  simp [mainStep, hb, generate_response, hp, hc]

theorem step_generate_ok (provider : Provider) (s : SessionState)
    (enquiry tone : String) (comp : ChatCompletion) (c : Choice)
    (rest : List Choice) (hb : (strip enquiry).isEmpty = false)
    (hp : provider (buildRequest enquiry tone) = .ok comp)
    (hc : comp.choices = c :: rest) :
    mainStep provider s (.generateClick enquiry tone) =
      ⟨⟨some c.message.content, some enquiry⟩, .responseShown,
       [buildRequest enquiry tone]⟩ := by
  simp [mainStep, hb, generate_response, hp, hc]

theorem step_regen_none (provider : Provider) (s : SessionState)
    (tone : String) (hr : s.last_response = none) :
    mainStep provider s (.regenerateClick tone) = ⟨s, .infoPrompt, []⟩ := by
  simp [mainStep, hr]

theorem step_regen_err (provider : Provider) (s : SessionState)
    (tone r e : String) (hr : s.last_response = some r)
    (hp : provider (buildRequest (s.last_enquiry.getD "") tone) = .error e) :
    mainStep provider s (.regenerateClick tone) =
      ⟨s, .errorBox ("❌ Error: " ++ e),
       [buildRequest (s.last_enquiry.getD "") tone]⟩ := by
  simp [mainStep, hr, generate_response, hp]

theorem step_regen_nil (provider : Provider) (s : SessionState)
    (tone r : String) (comp : ChatCompletion) (hr : s.last_response = some r)
    (hp : provider (buildRequest (s.last_enquiry.getD "") tone) = .ok comp)
    (hc : comp.choices = []) :
    mainStep provider s (.regenerateClick tone) =
      ⟨s, .errorBox ("❌ Error: " ++ "list index out of range"),
       [buildRequest (s.last_enquiry.getD "") tone]⟩ := by
  simp [mainStep, hr, generate_response, hp, hc]

theorem step_regen_ok (provider : Provider) (s : SessionState)
    (tone r : String) (comp : ChatCompletion) (c : Choice) (rest : List Choice)
    (hr : s.last_response = some r)
    (hp : provider (buildRequest (s.last_enquiry.getD "") tone) = .ok comp)
    (hc : comp.choices = c :: rest) :
    mainStep provider s (.regenerateClick tone) =
      ⟨⟨some c.message.content, s.last_enquiry⟩, .responseShown,
       [buildRequest (s.last_enquiry.getD "") tone]⟩ := by
  simp [mainStep, hr, generate_response, hp, hc]

/-- Every shell action either leaves the session state unchanged, or is a
successful Generate (writing both keys, with a non-blank enquiry), or is
a successful Regenerate (writing only `"last_response"`, and only
possible when it was already present). -/
theorem mainStep_state_shape (provider : Provider) (s : SessionState) (ev : Event) :
    (mainStep provider s ev).state = s ∨
    (∃ enquiry resp, (strip enquiry).isEmpty = false ∧
      (mainStep provider s ev).state = ⟨some resp, some enquiry⟩) ∨
    (∃ resp, s.last_response.isSome = true ∧
      (mainStep provider s ev).state = ⟨some resp, s.last_enquiry⟩) := by
  cases ev with
  | generateClick enquiry tone =>
    cases hb : (strip enquiry).isEmpty with
    | true => left; rw [step_generate_blank provider s enquiry tone hb]
    | false =>
      cases hp : provider (buildRequest enquiry tone) with
      | error e => left; rw [step_generate_err provider s enquiry tone e hb hp]
      | ok comp =>
        cases hc : comp.choices with
        | nil => left; rw [step_generate_nil provider s enquiry tone comp hb hp hc]
        | cons c rest =>
          right; left
          exact ⟨enquiry, c.message.content, hb,
            by rw [step_generate_ok provider s enquiry tone comp c rest hb hp hc]⟩
  | regenerateClick tone =>
    cases hr : s.last_response with
    | none => left; rw [step_regen_none provider s tone hr]
    | some r =>
      cases hp : provider (buildRequest (s.last_enquiry.getD "") tone) with
      | error e => left; rw [step_regen_err provider s tone r e hr hp]
      | ok comp =>
        cases hc : comp.choices with
        | nil => left; rw [step_regen_nil provider s tone r comp hr hp hc]
        | cons c rest =>
          right; right
          exact ⟨c.message.content, by simp [hr],
            by rw [step_regen_ok provider s tone r comp c rest hr hp hc]⟩

/-- Every shell action issues either no request or exactly one request,
built by `buildRequest` from some enquiry and tone. -/
theorem mainStep_calls_shape (provider : Provider) (s : SessionState) (ev : Event) :
    (mainStep provider s ev).providerCalls = [] ∨
    ∃ e t, (mainStep provider s ev).providerCalls = [buildRequest e t] := by
  cases ev with
  | generateClick enquiry tone =>
    cases hb : (strip enquiry).isEmpty with
    | true => left; rw [step_generate_blank provider s enquiry tone hb]
    | false =>
      right
      refine ⟨enquiry, tone, ?_⟩
      cases hp : provider (buildRequest enquiry tone) with
      | error e => rw [step_generate_err provider s enquiry tone e hb hp]
      | ok comp =>
        cases hc : comp.choices with
        | nil => rw [step_generate_nil provider s enquiry tone comp hb hp hc]
        | cons c rest => rw [step_generate_ok provider s enquiry tone comp c rest hb hp hc]
  | regenerateClick tone =>
    cases hr : s.last_response with
    | none => left; rw [step_regen_none provider s tone hr]
    | some r =>
      right
      refine ⟨s.last_enquiry.getD "", tone, ?_⟩
      cases hp : provider (buildRequest (s.last_enquiry.getD "") tone) with
      | error e => rw [step_regen_err provider s tone r e hr hp]
      | ok comp =>
        cases hc : comp.choices with
        | nil => rw [step_regen_nil provider s tone r comp hr hp hc]
        | cons c rest => rw [step_regen_ok provider s tone r comp c rest hr hp hc]

/-! ### Claims -/

/-- Claim C1: for every non-empty enquiry and every valid tone, the
composer produces exactly two messages in order — a system message whose
content is the policy prompt, then `"\n\n"`, then the tone's instruction
fragment, and a user message whose content is the enquiry verbatim; for
a valid tone the appended fragment is non-empty. -/
theorem composer_two_messages (enquiry tone : String)
    (hne : (strip enquiry).isEmpty = false)
    (hvalid : tone = "Friendly & Casual" ∨ tone = "Formal & Professional" ∨
      tone = "Empathetic & Supportive") :
    composeMessages enquiry tone =
      [⟨"system", SYSTEM_PROMPT ++ "\n\n" ++ tone_instruction tone⟩,
       ⟨"user", enquiry⟩] ∧
    tone_instruction tone ≠ "" := by
  refine ⟨rfl, ?_⟩
  rcases hvalid with h | h | h <;> subst h <;> decide

/-- Witness for C1 at the spec's end-to-end scenario input. -/
theorem composer_two_messages_witness :
    ((strip "Hi, I see damp patches on my wall after rain.").isEmpty = false) ∧
    (composeMessages "Hi, I see damp patches on my wall after rain."
        "Formal & Professional" =
      [⟨"system", SYSTEM_PROMPT ++ "\n\n" ++
          tone_instruction "Formal & Professional"⟩,
       ⟨"user", "Hi, I see damp patches on my wall after rain."⟩] ∧
     tone_instruction "Formal & Professional" ≠ "") :=
  ⟨by decide,
   composer_two_messages "Hi, I see damp patches on my wall after rain."
     "Formal & Professional" (by decide) (Or.inr (Or.inl rfl))⟩

/-- Claim C2: when Generate is clicked with an empty or whitespace-only
enquiry, the shell shows a validation warning, issues no provider
request, and leaves the session state unchanged. -/
theorem empty_enquiry_blocks_request (provider : Provider) (s : SessionState)
    (enquiry tone : String) (hblank : (strip enquiry).isEmpty = true) :
    mainStep provider s (.generateClick enquiry tone) =
      ⟨s, .warning "⚠️ Please enter a customer enquiry first.", []⟩ :=
  step_generate_blank provider s enquiry tone hblank

/-- Witness for C2 with a whitespace-only enquiry. -/
theorem empty_enquiry_blocks_request_witness :
    ((strip "   ").isEmpty = true) ∧
    mainStep (stubErr "unreachable") initialState
        (.generateClick "   " "Friendly & Casual") =
      ⟨initialState, .warning "⚠️ Please enter a customer enquiry first.", []⟩ :=
  ⟨by decide,
   empty_enquiry_blocks_request (stubErr "unreachable") initialState
     "   " "Friendly & Casual" (by decide)⟩

/-- Claim C3: for every enquiry and every tone outside the enumerated
set, the composer does not fail: the selected fragment is the empty
string and the system message is the policy text followed only by the
`"\n\n"` separator. -/
theorem unknown_tone_silent_fallback (enquiry tone : String)
    (h1 : tone ≠ "Friendly & Casual") (h2 : tone ≠ "Formal & Professional")
    (h3 : tone ≠ "Empathetic & Supportive") :
    tone_instruction tone = "" ∧
    composeMessages enquiry tone =
      [⟨"system", SYSTEM_PROMPT ++ "\n\n"⟩, ⟨"user", enquiry⟩] := by
  have ht : tone_instruction tone = "" := by
    simp [tone_instruction, h1, h2, h3]
  exact ⟨ht, by simp [composeMessages, ht]⟩

/-- Witness for C3 at an unrecognised tone value. -/
theorem unknown_tone_silent_fallback_witness :
    tone_instruction "Sarcastic" = "" ∧
    composeMessages "hello" "Sarcastic" =
      [⟨"system", SYSTEM_PROMPT ++ "\n\n"⟩, ⟨"user", "hello"⟩] :=
  unknown_tone_silent_fallback "hello" "Sarcastic"
    (by decide) (by decide) (by decide)

/-- Claim C8: for every enquiry and tone, the first message of the
composed request is the system message, its content starts with the
unaltered policy prompt, and the remainder of the request consists
only of the tone-dependent suffix and the user message carrying the
enquiry — the policy text never varies with user input. -/
theorem policy_prompt_always_first (enquiry tone : String) :
    ∃ suffix, (composeMessages enquiry tone).head? =
        some ⟨"system", SYSTEM_PROMPT ++ suffix⟩ ∧
      suffix = "\n\n" ++ tone_instruction tone ∧
      (composeMessages enquiry tone).tail = [⟨"user", enquiry⟩] := by
  refine ⟨"\n\n" ++ tone_instruction tone, ?_, rfl, rfl⟩
  simp [composeMessages, String.append_assoc]

/-- On Regenerate with `"last_response"` present, the single issued
request is built from the stored enquiry (`"last_enquiry"`, defaulting
to the empty string) and the current tone, whatever the provider does. -/
theorem step_regen_calls (provider : Provider) (s : SessionState)
    (tone r : String) (hr : s.last_response = some r) :
    (mainStep provider s (.regenerateClick tone)).providerCalls =
      [buildRequest (s.last_enquiry.getD "") tone] := by
  cases hp : provider (buildRequest (s.last_enquiry.getD "") tone) with
  | error e => rw [step_regen_err provider s tone r e hr hp]
  | ok comp =>
    cases hc : comp.choices with
    | nil => rw [step_regen_nil provider s tone r comp hr hp hc]
    | cons c rest => rw [step_regen_ok provider s tone r comp c rest hr hp hc]

/-- Claim C4: if the provider call raised during generation or
regeneration, the stored draft (`"last_response"`) and stored enquiry
(`"last_enquiry"`) are left unchanged — the whole session state is
untouched — and an error box carrying the error text is shown. -/
theorem provider_failure_preserves_draft (provider : Provider)
    (s : SessionState) (enquiry tone e : String)
    (hfail : ∀ req, provider req = .error e) :
    ((strip enquiry).isEmpty = false →
      mainStep provider s (.generateClick enquiry tone) =
        ⟨s, .errorBox ("❌ Error from Groq API: " ++ e),
         [buildRequest enquiry tone]⟩) ∧
    (∀ r, s.last_response = some r →
      mainStep provider s (.regenerateClick tone) =
        ⟨s, .errorBox ("❌ Error: " ++ e),
         [buildRequest (s.last_enquiry.getD "") tone]⟩) :=
  ⟨fun hne => step_generate_err provider s enquiry tone e hne (hfail _),
   fun r hr => step_regen_err provider s tone r e hr (hfail _)⟩

/-- Witness for C4 with a failing stub provider and a stored draft. -/
theorem provider_failure_preserves_draft_witness :
    mainStep (stubErr "boom") ⟨some "old draft", some "prev"⟩
        (.generateClick "hello" "Friendly & Casual") =
      ⟨⟨some "old draft", some "prev"⟩,
       .errorBox ("❌ Error from Groq API: " ++ "boom"),
       [buildRequest "hello" "Friendly & Casual"]⟩ ∧
    mainStep (stubErr "boom") ⟨some "old draft", some "prev"⟩
        (.regenerateClick "Friendly & Casual") =
      ⟨⟨some "old draft", some "prev"⟩, .errorBox ("❌ Error: " ++ "boom"),
       [buildRequest "prev" "Friendly & Casual"]⟩ := by
  have h := provider_failure_preserves_draft (stubErr "boom")
    ⟨some "old draft", some "prev"⟩ "hello" "Friendly & Casual" "boom"
    (fun _ => rfl)
  exact ⟨h.1 (by decide), h.2 "old draft" rfl⟩

/-- Claim C5: the request trace is a pure function of enquiry and tone:
a Generate that succeeded (display shows the response) issued exactly
the request built from its enquiry and tone, and a Regenerate from the
resulting state with the same tone — under any provider — issues a
structurally identical request sequence. -/
theorem regenerate_issues_identical_request (provider provider2 : Provider)
    (s s2 : SessionState) (enquiry tone : String) (calls : List Request)
    (hgen : mainStep provider s (.generateClick enquiry tone) =
      ⟨s2, .responseShown, calls⟩) :
    calls = [buildRequest enquiry tone] ∧
    (mainStep provider2 s2 (.regenerateClick tone)).providerCalls = calls := by
  cases hb : (strip enquiry).isEmpty with
  | true =>
    rw [step_generate_blank provider s enquiry tone hb] at hgen
    simp at hgen
  | false =>
    cases hp : provider (buildRequest enquiry tone) with
    | error e =>
      rw [step_generate_err provider s enquiry tone e hb hp] at hgen
      simp at hgen
    | ok comp =>
      cases hc : comp.choices with
      | nil =>
        rw [step_generate_nil provider s enquiry tone comp hb hp hc] at hgen
        simp at hgen
      | cons c rest =>
        rw [step_generate_ok provider s enquiry tone comp c rest hb hp hc] at hgen
        injection hgen with h1 h2 h3
        subst h1
        subst h3
        exact ⟨rfl, step_regen_calls provider2 _ tone c.message.content rfl⟩

/-- Witness for C5: a successful generation followed by a regeneration
under a different provider issues the same single request. -/
theorem regenerate_issues_identical_request_witness :
    [buildRequest "hi" "Friendly & Casual"] =
      [buildRequest "hi" "Friendly & Casual"] ∧
    (mainStep (stubOk "second draft") ⟨some "first draft", some "hi"⟩
        (.regenerateClick "Friendly & Casual")).providerCalls =
      [buildRequest "hi" "Friendly & Casual"] :=
  regenerate_issues_identical_request (stubOk "first draft")
    (stubOk "second draft") initialState ⟨some "first draft", some "hi"⟩
    "hi" "Friendly & Casual" [buildRequest "hi" "Friendly & Casual"] rfl

/-- Claim C6: every request the shell ever issues carries the fixed
constants — the model identifier, temperature 0.5, top-p 0.9 and
max-token limit 1024 — independently of user input. -/
theorem fixed_request_parameters (provider : Provider) (s : SessionState)
    (ev : Event) (req : Request)
    (hmem : req ∈ (mainStep provider s ev).providerCalls) :
    req.model = "llama-3.3-70b-versatile" ∧ req.temperature = 0.5 ∧
    req.top_p = 0.9 ∧ req.max_tokens = 1024 := by
  rcases mainStep_calls_shape provider s ev with h | ⟨e, t, h⟩
  · rw [h] at hmem
    cases hmem
  · rw [h] at hmem
    rw [List.mem_singleton] at hmem
    subst hmem
    exact ⟨rfl, rfl, rfl, rfl⟩

/-- Witness for C6 at a concrete generation. -/
theorem fixed_request_parameters_witness :
    (buildRequest "hi" "Friendly & Casual" ∈
      (mainStep (stubOk "draft") initialState
        (.generateClick "hi" "Friendly & Casual")).providerCalls) ∧
    ((buildRequest "hi" "Friendly & Casual").model = "llama-3.3-70b-versatile" ∧
     (buildRequest "hi" "Friendly & Casual").temperature = 0.5 ∧
     (buildRequest "hi" "Friendly & Casual").top_p = 0.9 ∧
     (buildRequest "hi" "Friendly & Casual").max_tokens = 1024) :=
  ⟨List.mem_singleton_self _,
   fixed_request_parameters (stubOk "draft") initialState
     (.generateClick "hi" "Friendly & Casual")
     (buildRequest "hi" "Friendly & Casual") (List.mem_singleton_self _)⟩

/-- Claim C7: `generate_response` issues exactly one request (no retry,
no backoff); on success it returns the first completion's text content,
and a provider error propagates with the underlying message unchanged. -/
theorem generate_response_contract (provider : Provider)
    (enquiry tone e : String) (comp : ChatCompletion) (c : Choice)
    (rest : List Choice) :
    ((generate_response provider enquiry tone).2 =
      [buildRequest enquiry tone]) ∧
    (provider (buildRequest enquiry tone) = .ok comp →
      comp.choices = c :: rest →
      (generate_response provider enquiry tone).1 = .ok c.message.content) ∧
    (provider (buildRequest enquiry tone) = .error e →
      (generate_response provider enquiry tone).1 = .error e) := by
  refine ⟨rfl, fun hp hc => ?_, fun hp => ?_⟩
  · simp [generate_response, hp, hc]
  · simp [generate_response, hp]

/-- Witness for C7: a succeeding and a failing provider at a concrete
enquiry. -/
theorem generate_response_contract_witness :
    (generate_response (stubOk "draft") "hi" "Friendly & Casual").1 =
      .ok "draft" ∧
    (generate_response (stubErr "boom") "hi" "Friendly & Casual").1 =
      .error "boom" :=
  ⟨(generate_response_contract (stubOk "draft") "hi" "Friendly & Casual"
      "boom" ⟨[⟨⟨"draft"⟩⟩]⟩ ⟨⟨"draft"⟩⟩ []).2.1 rfl rfl,
   (generate_response_contract (stubErr "boom") "hi" "Friendly & Casual"
      "boom" ⟨[]⟩ ⟨⟨"x"⟩⟩ []).2.2 rfl⟩

/-- In every reachable session state, a stored response implies a stored
non-blank enquiry. -/
theorem reachable_enquiry_inv (s : SessionState) (h : Reachable s) :
    s.last_response.isSome = true →
      ∃ e, s.last_enquiry = some e ∧ (strip e).isEmpty = false := by
  induction h with
  | init => intro hr; simp [initialState] at hr
  | step provider ev s hs ih =>
    intro hr
    rcases mainStep_state_shape provider s ev with
      heq | ⟨enquiry, resp, hb, heq⟩ | ⟨resp, hsome, heq⟩
    · rw [heq] at hr ⊢
      exact ih hr
    · rw [heq]
      exact ⟨enquiry, rfl, hb⟩
    · rw [heq]
      exact ih hsome

/-- Claim C9: in every reachable session state, if `"last_response"` is
present then `"last_enquiry"` is present and non-blank after stripping,
so the Regenerate path (which reads `"last_enquiry"` with an empty
default) always issues its request with that stored non-blank enquiry. -/
theorem session_invariant_nonblank_enquiry (s : SessionState)
    (h : Reachable s) (hr : s.last_response.isSome = true) :
    ∃ e, s.last_enquiry = some e ∧ (strip e).isEmpty = false ∧
      ∀ (provider : Provider) (tone : String),
        (mainStep provider s (.regenerateClick tone)).providerCalls =
          [buildRequest e tone] := by
  obtain ⟨e, he, hbe⟩ := reachable_enquiry_inv s h hr
  obtain ⟨r, hrr⟩ := Option.isSome_iff_exists.mp hr
  refine ⟨e, he, hbe, fun provider tone => ?_⟩
  rw [step_regen_calls provider s tone r hrr, he]
  rfl

/-- Witness for C9 at a state reached by one successful generation. -/
theorem session_invariant_nonblank_enquiry_witness :
    ∃ e, (SessionState.mk (some "draft") (some "hi")).last_enquiry = some e ∧
      (strip e).isEmpty = false ∧
      ∀ (provider : Provider) (tone : String),
        (mainStep provider ⟨some "draft", some "hi"⟩
            (.regenerateClick tone)).providerCalls = [buildRequest e tone] := by
  have hreach : Reachable ⟨some "draft", some "hi"⟩ :=
    Reachable.step (stubOk "draft")
      (.generateClick "hi" "Friendly & Casual") initialState Reachable.init
  exact session_invariant_nonblank_enquiry ⟨some "draft", some "hi"⟩ hreach rfl

/-- Claim C10: a successful Regenerate overwrites only
`"last_response"`; the stored `"last_enquiry"` is left unchanged. -/
theorem regenerate_overwrites_only_response (provider : Provider)
    (s s2 : SessionState) (tone : String) (calls : List Request)
    (h : mainStep provider s (.regenerateClick tone) =
      ⟨s2, .responseShown, calls⟩) :
    s2.last_enquiry = s.last_enquiry ∧
    ∃ resp, s2.last_response = some resp := by
  cases hr : s.last_response with
  | none =>
    rw [step_regen_none provider s tone hr] at h
    simp at h
  | some r =>
    cases hp : provider (buildRequest (s.last_enquiry.getD "") tone) with
    | error e =>
      rw [step_regen_err provider s tone r e hr hp] at h
      simp at h
    | ok comp =>
      cases hc : comp.choices with
      | nil =>
        rw [step_regen_nil provider s tone r comp hr hp hc] at h
        simp at h
      | cons c rest =>
        rw [step_regen_ok provider s tone r comp c rest hr hp hc] at h
        injection h with h1 h2 h3
        subst h1
        exact ⟨rfl, c.message.content, rfl⟩

/-- Witness for C10: a concrete successful regeneration. -/
theorem regenerate_overwrites_only_response_witness :
    (SessionState.mk (some "second draft") (some "hi")).last_enquiry =
      (SessionState.mk (some "first draft") (some "hi")).last_enquiry ∧
    ∃ resp, (SessionState.mk (some "second draft")
        (some "hi")).last_response = some resp :=
  regenerate_overwrites_only_response (stubOk "second draft")
    ⟨some "first draft", some "hi"⟩ ⟨some "second draft", some "hi"⟩
    "Friendly & Casual" [buildRequest "hi" "Friendly & Casual"] rfl

end LeadResponse
